import Mathlib

/-!
Shallow embedding of the two core components of the repository
(session-02 of `advanced-software-engineering`):

* the Bus Proxy — `broker/broker.py`, the XSUB/XPUB relay loop of `main`
  (lines 120-168);
* the Latest-Value Broadcaster — `web_server/web_server.py`: the module
  state guarded by `lock`/`frame_cond` (lines 113-119), the `/frame.jpg`
  handler `frame` (lines 129-140), the MJPEG generator in `stream_mjpg`
  (lines 166-203) and the slot update in `zmq_receiver` (lines 244-256).

Python byte strings are lists of byte values, multipart messages are
lists of byte strings, and Python integers are `Int` (they are arbitrary
precision; `last_sent_seq` starts at `-1`).  Each `with lock:` /
`with frame_cond:` critical section of the source is one atomic step
function on an explicit state record.
-/

namespace WebServer

/-- A Python byte string: a list of byte values. -/
abbrev Bytes := List Nat

/-- The metadata record `latest_meta` built in `zmq_receiver`
(web_server.py lines 246-254) from `header.get(...)` lookups; each field
is optional because `dict.get` yields `None` for a missing key.  Values
are kept as strings since the slot stores them opaquely. -/
structure Meta where
  frame_id : Option String
  w : Option String
  h : Option String
  mode : Option String
  processed : Option String
  ts_capture : Option String
  ts_processed : Option String
deriving DecidableEq

/-- The metadata record with every field absent, modelling the initial
`latest_meta = {}` (web_server.py line 114). -/
def emptyMeta : Meta := ⟨none, none, none, none, none, none, none⟩

/-- The module-level shared state of `web_server.py` (lines 113-119),
all of it guarded by the single `lock` that also backs `frame_cond`:
`latest_jpeg` (initially `None`), `latest_meta`, `latest_frame_seq`
(initially `0`), plus the set of consumer threads currently blocked in
`frame_cond.wait_for`, identified by thread ids. -/
structure ServerState where
  latest_jpeg : Option Bytes
  latest_meta : Meta
  latest_frame_seq : Int
  waiting : List Nat
deriving DecidableEq

/-- The state at module load: no frame, empty metadata, sequence 0,
nobody waiting. -/
def initState : ServerState := ⟨none, emptyMeta, 0, []⟩

/-- The critical section of `zmq_receiver` (web_server.py lines 244-256):
holding `frame_cond`, store the new payload and the new metadata record,
increment `latest_frame_seq`, and `notify_all()`.  One atomic step; the
second component returns the set of consumers woken by `notify_all`
(everyone who was waiting; afterwards nobody is left waiting). -/
def publish (jpeg : Bytes) (meta : Meta) (s : ServerState) :
    ServerState × List Nat :=
  (⟨some jpeg, meta, s.latest_frame_seq + 1, []⟩, s.waiting)

/-- Folding `publish` over a list of (payload, metadata) pairs: the
receiver loop storing one frame after another with no interleaved
reads. -/
def publishAll (fs : List (Bytes × Meta)) (s : ServerState) : ServerState :=
  fs.foldl (fun st fm => (publish fm.1 fm.2 st).1) s

/-- Result of an HTTP handler: an error response with a body and a
status code, or a successful payload. -/
inductive HttpResult
  | err (body : String) (status : Nat)
  | ok (data : Bytes)
deriving DecidableEq

/-- The `/frame.jpg` handler (web_server.py lines 129-140): read
`latest_jpeg` under the lock; `if not data:` — Python truthiness, so both
`None` and the empty byte string take this branch — answer
`HTTPResponse("No frame yet", status=503)`, otherwise return the
bytes. -/
def frame (s : ServerState) : HttpResult :=
  match s.latest_jpeg with
  | none => .err "No frame yet" 503
  | some d => if d = [] then .err "No frame yet" 503 else .ok d

/-- The MJPEG generator's wake predicate (web_server.py line 176):
`latest_jpeg is not None and latest_frame_seq != last_sent_seq`. -/
def wakePred (s : ServerState) (last_sent_seq : Int) : Bool :=
  s.latest_jpeg.isSome && s.latest_frame_seq != last_sent_seq

/-- One iteration of the generator body in `stream_mjpg` after
`wait_for` returns (web_server.py lines 179-194) — it returns either
because the predicate became true or because the 2.0 s timeout elapsed;
the code does not inspect which.  Under the lock: if `latest_jpeg` is
`None`, `continue` (no yield, cursor unchanged); otherwise capture the
payload and the current sequence number, set `last_sent_seq` to it, and
yield the part.  Returns the optional yielded (payload, sequence) pair
and the updated `last_sent_seq`. -/
def cursorStep (s : ServerState) (last_sent_seq : Int) :
    Option (Bytes × Int) × Int :=
  match s.latest_jpeg with
  | none => (none, last_sent_seq)
  | some j => (some (j, s.latest_frame_seq), s.latest_frame_seq)

/-- An event in an interleaving of the receiver thread with one MJPEG
cursor: either the receiver stores a frame, or the cursor's `wait_for`
returns (by notification or by its 2.0 s timeout) and the generator body
runs. -/
inductive CEvent
  | pub (jpeg : Bytes) (meta : Meta)
  | wake
deriving DecidableEq

/-- The sequence numbers a single cursor records across its yields along
an interleaving, starting from state `s` with cursor position `last`
(a fresh cursor starts at `last_sent_seq = -1`, web_server.py
line 168). -/
def runCursor : List CEvent → ServerState → Int → List Int
  | [], _, _ => []
  | .pub j m :: es, s, last => runCursor es (publish j m s).1 last
  | .wake :: es, s, last =>
      match s.latest_jpeg with
      | none => runCursor es s last
      | some _ => s.latest_frame_seq :: runCursor es s s.latest_frame_seq

end WebServer

namespace Broker

/-- A multipart message: an ordered list of opaque byte segments. -/
abbrev Msg := List WebServer.Bytes

/-- `sum(len(p) for p in msg) if msg else 0` (broker.py lines 130, 147):
for the empty message the guard yields 0, which equals the empty sum. -/
def totalBytes (m : Msg) : Nat := (m.map List.length).sum

/-- The telemetry the broker loop updates (broker.py lines 128-156, 167):
the `FRAMES_IN`/`BYTES_IN` counters with topic label `"xsub_in"` and
`"subs"`, the `FRAMES_OUT`/`BYTES_OUT` counters with topic label
`"xpub_out"` and `"subs"`, the observation counts of the `STAGE_SECONDS`
histogram per stage label, and the `ERRORS` counter as the list of
exception type names counted so far (broker.py line 167). -/
structure Telemetry where
  framesIn_xsub : Nat
  bytesIn_xsub : Nat
  framesOut_xpub : Nat
  bytesOut_xpub : Nat
  framesIn_subs : Nat
  bytesIn_subs : Nat
  framesOut_subs : Nat
  bytesOut_subs : Nat
  stage_recv_xsub : Nat
  stage_send_xpub : Nat
  stage_recv_xpub : Nat
  stage_send_xsub : Nat
  errors : List String
deriving DecidableEq

/-- All counters at zero, no errors counted. -/
def initTelemetry : Telemetry := ⟨0, 0, 0, 0, 0, 0, 0, 0, 0, 0, 0, 0, []⟩

/-- The ingress branch of the relay loop (broker.py lines 125-139):
`msg = xsub.recv_multipart()`; observe the recv timing; count the frame
and its bytes in under topic `"xsub_in"`; `xpub.send_multipart(msg)` —
the identical object, unparsed and unmodified; observe the send timing;
count the frame and the same bytes out under topic `"xpub_out"`.
Returns the updated telemetry and the message written to the egress
socket. -/
def ingressStep (msg : Msg) (t : Telemetry) : Telemetry × Msg :=
  ({ t with
      framesIn_xsub := t.framesIn_xsub + 1
      bytesIn_xsub := t.bytesIn_xsub + totalBytes msg
      framesOut_xpub := t.framesOut_xpub + 1
      bytesOut_xpub := t.bytesOut_xpub + totalBytes msg
      stage_recv_xsub := t.stage_recv_xsub + 1
      stage_send_xpub := t.stage_send_xpub + 1 }, msg)

/-- The verbose decoding of a subscription intent (broker.py lines
158-161): run only when `XPUB_VERBOSE` is set and `sub_msg` and its
first segment are non-empty; reads byte 0 as the action flag and the
rest of the first segment as the topic, producing only a log line. -/
def verboseLog (sub_msg : Msg) : Option (String × WebServer.Bytes) :=
  match sub_msg with
  | (b :: rest) :: _ => some ((if b = 1 then "SUB" else "UNSUB"), rest)
  | _ => none

/-- The egress branch of the relay loop (broker.py lines 142-161):
`sub_msg = xpub.recv_multipart()`; observe the recv timing; count the
intent and its bytes in under topic `"subs"`;
`xsub.send_multipart(sub_msg)` — verbatim; observe the send timing;
count it out under topic `"subs"`; then, only if the verbose flag is
set, decode the action flag and topic for logging.  Returns the updated
telemetry, the bytes written to the ingress socket, and the optional log
line. -/
def egressStep (verbose : Bool) (sub_msg : Msg) (t : Telemetry) :
    Telemetry × Msg × Option (String × WebServer.Bytes) :=
  ({ t with
      framesIn_subs := t.framesIn_subs + 1
      bytesIn_subs := t.bytesIn_subs + totalBytes sub_msg
      framesOut_subs := t.framesOut_subs + 1
      bytesOut_subs := t.bytesOut_subs + totalBytes sub_msg
      stage_recv_xpub := t.stage_recv_xpub + 1
      stage_send_xsub := t.stage_send_xsub + 1 },
   sub_msg,
   if verbose then verboseLog sub_msg else none)

/-- Running the ingress branch over a sequence of frames read from the
ingress endpoint, in arrival order; returns the final telemetry and the
list of messages written to the egress endpoint, in submission order. -/
def relayIngress : List Msg → Telemetry → Telemetry × List Msg
  | [], t => (t, [])
  | m :: ms, t =>
      let r := ingressStep m t
      let rest := relayIngress ms r.1
      (rest.1, r.2 :: rest.2)

/-- Running the egress branch over a sequence of subscription intents, in
arrival order; returns the final telemetry, the list of messages
forwarded to the ingress endpoint in order, and the emitted log
lines. -/
def egressRun (verbose : Bool) :
    List Msg → Telemetry →
      Telemetry × List Msg × List (String × WebServer.Bytes)
  | [], t => (t, [], [])
  | m :: ms, t =>
      let r := egressStep verbose m t
      let rest := egressRun verbose ms r.1
      (rest.1, r.2.1 :: rest.2.1,
       (match r.2.2 with | some l => [l] | none => []) ++ rest.2.2)

end Broker

namespace WebServer

/-- Splitting a publish sequence: storing `a ++ b` is storing `a`, then
`b`. -/
lemma publishAll_append (a b : List (Bytes × Meta)) (s : ServerState) :
    publishAll (a ++ b) s = publishAll b (publishAll a s) := by
  simp [publishAll, List.foldl_append]

/-- Each stored frame bumps the sequence number by one, so after a batch
it has grown by the batch's length. -/
lemma publishAll_seq (fs : List (Bytes × Meta)) (s : ServerState) :
    (publishAll fs s).latest_frame_seq = s.latest_frame_seq + fs.length := by
  induction fs generalizing s with
  | nil => simp [publishAll]
  | cons f fs ih =>
      simp [publishAll, List.foldl_cons] at ih ⊢
      rw [ih]
      simp [publish]
      ring

/-- After a batch ending in `(j, m)`, the slot holds exactly `(j, m)`. -/
lemma publishAll_snoc (fs : List (Bytes × Meta)) (j : Bytes) (m : Meta)
    (s : ServerState) :
    (publishAll (fs ++ [(j, m)]) s).latest_jpeg = some j ∧
    (publishAll (fs ++ [(j, m)]) s).latest_meta = m := by
  rw [publishAll_append]
  simp [publishAll, publish]

/-- Every sequence number a cursor records from state `s` onwards is at
least the sequence number of `s`: the slot's number only grows, and a
yield records the slot's current number. -/
lemma runCursor_ge (es : List CEvent) (s : ServerState) (last : Int) :
    ∀ x ∈ runCursor es s last, s.latest_frame_seq ≤ x := by
  induction es generalizing s last with
  | nil => simp [runCursor]
  | cons e es ih =>
      intro x hx
      cases e with
      | pub j m =>
          have := ih (publish j m s).1 last x hx
          simp [publish] at this
          omega
      | wake =>
          cases hj : s.latest_jpeg with
          | none =>
              simp [runCursor, hj] at hx
              exact ih s last x hx
          | some j =>
              simp [runCursor, hj] at hx
              rcases hx with h | h
              · omega
              · exact ih s s.latest_frame_seq x h

end WebServer

open WebServer Broker

/-- C1: every `publish` — the receiver's slot update — increments the
sequence number by exactly 1, replaces the (frame, metadata, sequence)
triple as one atomic step under the single guarding condition/lock, and
wakes exactly the currently-waiting consumers; along any publish
sequence the slot's sequence number never decreases, so a reader's later
observation is never smaller than an earlier one. -/
theorem C1_publish_atomic_increment_wakes_all :
    ∀ (j : Bytes) (m : Meta) (s : ServerState),
      (publish j m s).1.latest_frame_seq = s.latest_frame_seq + 1 ∧
      (publish j m s).1 = ⟨some j, m, s.latest_frame_seq + 1, []⟩ ∧
      (publish j m s).2 = s.waiting ∧
      ∀ (a b : List (Bytes × Meta)),
        (publishAll a s).latest_frame_seq ≤
          (publishAll (a ++ b) s).latest_frame_seq := by
  intro j m s
  refine ⟨rfl, rfl, rfl, ?_⟩
  intro a b
  rw [publishAll_append, publishAll_seq b, publishAll_seq a]
  omega

/-- C2: the Bus Proxy is a pure byte relay in both directions: the
ingress branch forwards to the egress socket exactly the multipart
message it received, segment for segment; the egress branch forwards
each subscription intent verbatim to the ingress socket; and a whole
sequence of ingress frames is forwarded identically and in submission
order. -/
theorem C2_pure_byte_relay :
    ∀ (msg sub : Msg) (v : Bool) (t u w : Telemetry) (msgs : List Msg),
      (ingressStep msg t).2 = msg ∧
      (egressStep v sub u).2.1 = sub ∧
      (relayIngress msgs w).2 = msgs := by
  intro msg sub v t u w msgs
  refine ⟨rfl, rfl, ?_⟩
  induction msgs generalizing w with
  | nil => rfl
  | cons m ms ih => simp [relayIngress, ingressStep, ih]

/-- C3: latest value wins — after a publish batch ending in `(j, m)`
with no interleaved reads, the slot holds exactly `(j, m)`; a cursor's
next yield delivers `j` at the current sequence number; the snapshot
endpoint serves `j` (unless `j` is the empty byte string, which Python
truthiness sends to the 503 branch); and every sequence number the
cursor records afterwards is at least the current one, so no older
frame version is ever replayed. -/
theorem C3_latest_value_wins :
    ∀ (fs : List (Bytes × Meta)) (j : Bytes) (m : Meta) (s : ServerState)
      (last : Int),
      (publishAll (fs ++ [(j, m)]) s).latest_jpeg = some j ∧
      (publishAll (fs ++ [(j, m)]) s).latest_meta = m ∧
      (cursorStep (publishAll (fs ++ [(j, m)]) s) last).1 =
        some (j, (publishAll (fs ++ [(j, m)]) s).latest_frame_seq) ∧
      frame (publishAll (fs ++ [(j, m)]) s) =
        (if j = [] then .err "No frame yet" 503 else .ok j) ∧
      ∀ es : List CEvent,
        (runCursor es (publishAll (fs ++ [(j, m)]) s) last).all
          (fun x =>
            decide ((publishAll (fs ++ [(j, m)]) s).latest_frame_seq ≤ x))
          = true := by
  intro fs j m s last
  obtain ⟨h1, h2⟩ := publishAll_snoc fs j m s
  refine ⟨h1, h2, ?_, ?_, ?_⟩
  · simp [cursorStep, h1]
  · simp [frame, h1]
  · intro es
    rw [List.all_eq_true]
    intro x hx
    simp only [decide_eq_true_eq]
    exact runCursor_ge es _ last x hx

/-- C4 counterexample: feeding the relay loop's ingress branch a frame
with zero segments, the broker does NOT drop it — the identical empty
message is handed to the egress send — no `MalformedFrameError` metric
is incremented (the error counter stays empty; the source never counts
that name anywhere), and the frame is counted by the ordinary ingress
frame counter instead. -/
theorem C4_counterexample :
    (ingressStep [] initTelemetry).2 = [] ∧
    (ingressStep [] initTelemetry).1.errors.count "MalformedFrameError" = 0 ∧
    (ingressStep [] initTelemetry).1.framesIn_xsub = 1 := by
  refine ⟨rfl, ?_, rfl⟩
  simp [ingressStep, initTelemetry]

/-- C4 amended: the broker has no zero-segment check: a zero-segment
frame takes the same path as any other — it is counted by the ordinary
ingress frame counter (and by the byte counters with 0 bytes), passed
unchanged to the egress send, and no error metric of any kind (in
particular no `MalformedFrameError`) is recorded by the loop body. -/
theorem C4_amended_no_zero_segment_handling :
    ∀ t : Telemetry,
      (ingressStep [] t).2 = [] ∧
      (ingressStep [] t).1.errors = t.errors ∧
      (ingressStep [] t).1.framesIn_xsub = t.framesIn_xsub + 1 ∧
      (ingressStep [] t).1.bytesIn_xsub = t.bytesIn_xsub := by
  intro t
  refine ⟨rfl, rfl, rfl, ?_⟩
  simp [ingressStep, totalBytes]

/-- C5 counterexample: a fresh cursor (`last_sent_seq = -1`) created
after a single publish does not block — its wake predicate is already
true — and its first yield is the frame published BEFORE it connected
(frame 1, at sequence 1), contradicting "blocks until publish N+1 and
never yields any of frames 1..N". -/
theorem C5_counterexample :
    wakePred (publish [171] emptyMeta initState).1 (-1) = true ∧
    (cursorStep (publish [171] emptyMeta initState).1 (-1)).1 =
      some ([171], 1) := by
  constructor
  · decide
  · decide

/-- C5 amended: a fresh cursor created after N ≥ 1 publishes does not
block — the wake predicate already holds — and its first yield is
exactly frame N, the latest, at sequence N; it never yields any of
frames 1..N-1 (every sequence number it records is ≥ N).  Only a cursor
created before any publish blocks (its wake predicate is false), and
after the first publish it yields exactly frame 1. -/
theorem C5_amended_yields_latest_immediately :
    ∀ (fs : List (Bytes × Meta)) (j : Bytes) (m : Meta),
      wakePred (publishAll (fs ++ [(j, m)]) initState) (-1) = true ∧
      (cursorStep (publishAll (fs ++ [(j, m)]) initState) (-1)).1 =
        some (j, (fs.length : Int) + 1) ∧
      wakePred initState (-1) = false ∧
      (cursorStep (publish j m initState).1 (-1)).1 = some (j, 1) ∧
      ∀ es : List CEvent,
        (runCursor es (publishAll (fs ++ [(j, m)]) initState) (-1)).all
          (fun x => decide ((fs.length : Int) + 1 ≤ x)) = true := by
  intro fs j m
  obtain ⟨h1, _⟩ := publishAll_snoc fs j m initState
  have hseq : (publishAll (fs ++ [(j, m)]) initState).latest_frame_seq
      = (fs.length : Int) + 1 := by
    rw [publishAll_seq]
    simp [initState]
  refine ⟨?_, ?_, rfl, ?_, ?_⟩
  · simp [wakePred, h1, hseq]
    omega
  · simp [cursorStep, h1, hseq]
  · simp [cursorStep, publish, initState]
  · intro es
    rw [List.all_eq_true]
    intro x hx
    simp only [decide_eq_true_eq]
    have h := runCursor_ge es _ (-1) x hx
    rw [hseq] at h
    exact h

/-- C6: a snapshot taken before any publish returns the explicit
`HTTPResponse("No frame yet", status=503)` indicator, and the snapshot
handler can never answer success with an empty payload presented as
valid frame data. -/
theorem C6_snapshot_before_publish_503 :
    frame initState = .err "No frame yet" 503 ∧
    ∀ s : ServerState, frame s ≠ .ok [] := by
  refine ⟨rfl, ?_⟩
  intro s
  cases hj : s.latest_jpeg with
  | none => simp [frame, hj]
  | some d =>
      by_cases hd : d = [] <;> simp [frame, hj, hd]

/-- C7: noninterference over the verbose flag — for any sequence of
subscription intents arriving on the egress side, the bytes forwarded to
the ingress side, their order, and the whole telemetry state are
identical whether the verbose flag is enabled or disabled; verbose mode
only adds log output. -/
theorem C7_verbose_noninterference :
    ∀ (ms : List Msg) (t : Telemetry),
      (egressRun true ms t).2.1 = (egressRun false ms t).2.1 ∧
      (egressRun true ms t).1 = (egressRun false ms t).1 := by
  intro ms
  induction ms with
  | nil => intro t; exact ⟨rfl, rfl⟩
  | cons m ms ih =>
      intro t
      have hstep : (egressStep true m t).1 = (egressStep false m t).1 := rfl
      have hfwd : (egressStep true m t).2.1 = (egressStep false m t).2.1 := rfl
      obtain ⟨ih1, ih2⟩ := ih (egressStep false m t).1
      constructor
      · simp only [egressRun, hstep, hfwd, ih1]
      · simp only [egressRun, hstep, ih2]

/-- C8: for every frame forwarded by the ingress branch, the in/out
frame counters each grow by exactly one, the in/out byte counters each
grow by exactly the sum of the segment lengths, and one recv-latency and
one send-latency observation are recorded — while the egress-side
counters and the error metric are untouched; symmetrically for every
intent forwarded by the egress branch. -/
theorem C8_telemetry_per_forward :
    ∀ (msg sub : Msg) (v : Bool) (t : Telemetry),
      ((ingressStep msg t).1.framesIn_xsub = t.framesIn_xsub + 1 ∧
       (ingressStep msg t).1.bytesIn_xsub = t.bytesIn_xsub + totalBytes msg ∧
       (ingressStep msg t).1.framesOut_xpub = t.framesOut_xpub + 1 ∧
       (ingressStep msg t).1.bytesOut_xpub = t.bytesOut_xpub + totalBytes msg ∧
       (ingressStep msg t).1.stage_recv_xsub = t.stage_recv_xsub + 1 ∧
       (ingressStep msg t).1.stage_send_xpub = t.stage_send_xpub + 1 ∧
       (ingressStep msg t).1.framesIn_subs = t.framesIn_subs ∧
       (ingressStep msg t).1.bytesIn_subs = t.bytesIn_subs ∧
       (ingressStep msg t).1.framesOut_subs = t.framesOut_subs ∧
       (ingressStep msg t).1.bytesOut_subs = t.bytesOut_subs ∧
       (ingressStep msg t).1.stage_recv_xpub = t.stage_recv_xpub ∧
       (ingressStep msg t).1.stage_send_xsub = t.stage_send_xsub ∧
       (ingressStep msg t).1.errors = t.errors) ∧
      ((egressStep v sub t).1.framesIn_subs = t.framesIn_subs + 1 ∧
       (egressStep v sub t).1.bytesIn_subs = t.bytesIn_subs + totalBytes sub ∧
       (egressStep v sub t).1.framesOut_subs = t.framesOut_subs + 1 ∧
       (egressStep v sub t).1.bytesOut_subs = t.bytesOut_subs + totalBytes sub ∧
       (egressStep v sub t).1.stage_recv_xpub = t.stage_recv_xpub + 1 ∧
       (egressStep v sub t).1.stage_send_xsub = t.stage_send_xsub + 1 ∧
       (egressStep v sub t).1.framesIn_xsub = t.framesIn_xsub ∧
       (egressStep v sub t).1.bytesIn_xsub = t.bytesIn_xsub ∧
       (egressStep v sub t).1.framesOut_xpub = t.framesOut_xpub ∧
       (egressStep v sub t).1.bytesOut_xpub = t.bytesOut_xpub ∧
       (egressStep v sub t).1.stage_recv_xsub = t.stage_recv_xsub ∧
       (egressStep v sub t).1.stage_send_xpub = t.stage_send_xpub ∧
       (egressStep v sub t).1.errors = t.errors) := by
  intro msg sub v t
  exact ⟨⟨rfl, rfl, rfl, rfl, rfl, rfl, rfl, rfl, rfl, rfl, rfl, rfl, rfl⟩,
         ⟨rfl, rfl, rfl, rfl, rfl, rfl, rfl, rfl, rfl, rfl, rfl, rfl, rfl⟩⟩

/-- C9 counterexample: publish one frame, then let the cursor's
`wait_for` return twice (the second time by its 2.0 s timeout, whose
result the generator never checks): the cursor records sequence 1 twice,
so the recorded sequence numbers are NOT strictly increasing. -/
theorem C9_counterexample :
    runCursor [.pub [5] emptyMeta, .wake, .wake] initState (-1) = [1, 1] ∧
    ¬ List.Chain' (fun a b => a < b)
        (runCursor [.pub [5] emptyMeta, .wake, .wake] initState (-1)) := by
  constructor
  · decide
  · intro h
    have he : runCursor [.pub [5] emptyMeta, .wake, .wake] initState (-1)
        = [1, 1] := by decide
    rw [he] at h
    exact absurd (List.chain'_cons.mp h).1 (by omega)

/-- C9 amended: the sequence numbers a single cursor records across its
yields are non-decreasing (never strictly decreasing) in every
interleaving; strictness can fail because a timed-out wait re-yields the
current frame at an unchanged sequence number. -/
theorem C9_amended_recorded_seqs_nondecreasing :
    ∀ (es : List CEvent) (s : ServerState) (last : Int),
      List.Chain' (fun a b => a ≤ b) (runCursor es s last) := by
  intro es
  induction es with
  | nil => intro s last; simp [runCursor]
  | cons e es ih =>
      intro s last
      cases e with
      | pub j m => exact ih (publish j m s).1 last
      | wake =>
          cases hj : s.latest_jpeg with
          | none => simpa [runCursor, hj] using ih s last
          | some d =>
              simp only [runCursor, hj]
              rw [List.chain'_cons']
              refine ⟨?_, ih s s.latest_frame_seq⟩
              intro b hb
              exact runCursor_ge es s s.latest_frame_seq b
                (List.mem_of_mem_head? hb)

/-- C10: the snapshot endpoint treats a published empty payload exactly
like the no-frame-yet state: after publishing the empty byte string the
handler returns the same `HTTPResponse("No frame yet", status=503)` as
before any publish, because `if not data:` tests Python truthiness
rather than presence. -/
theorem C10_empty_payload_is_503 :
    ∀ (m : Meta) (s : ServerState),
      frame (publish [] m s).1 = .err "No frame yet" 503 ∧
      frame (publish [] m s).1 = frame initState := by
  intro m s
  exact ⟨rfl, rfl⟩
